import Mathlib

/-!
Verification of the simple UAVCAN sensor-node example
(`src/Examples/simple_sensor_node.c`, wire-format variant A).

The C program is shallowly embedded as executable Lean definitions.
Machine integers are modelled as `Nat` with explicit reductions where the C
type forces truncation.  Bitwise operations of the C source are rendered
arithmetically where the operands are provably disjoint or the mask is a
contiguous low/high field:
  - `x & 0x80000000` becomes `0x80000000 * (x / 0x80000000)` (the sign bit),
  - `x ^ sign` (clearing a set sign bit) becomes `x % 0x80000000`,
  - `x & ~0xFFF` becomes `0x1000 * (x / 0x1000)`,
  - `x >> k` becomes `x / 2 ^ k`, `x << k` becomes `x * 2 ^ k`,
  - `x & 0xFF` becomes `x % 256`, `x & 31` becomes `x % 32`,
  - `a | b` becomes `a + b` exactly when the set bits of `a` and `b` are
    disjoint (noted at each use); where disjointness is not guaranteed by the
    C types, `|||` is kept literally.
The NULL payload pointer of the C API is modelled with `Option`: `none` is a
NULL pointer, `some bs` is a pointer to the byte list `bs`.
-/

namespace SensorNode

/-! ## Transport adapter (`can_send`) -/

/-- A classic CAN frame as filled in by `can_send`: the 32-bit identifier word
(including the `CAN_EFF_FLAG` bit) and the `can_dlc`-long data bytes. -/
structure CanFrame where
  can_id : Nat
  data : List Nat
deriving DecidableEq, Repr

/-- Linux `CAN_EFF_FLAG` (bit 31), OR-ed into `frame.can_id` by `can_send`. -/
def CAN_EFF_FLAG : Nat := 0x80000000

/-- The C function `can_send(extended_can_id, frame_data, frame_data_len)`.

The OS-level `write` call is external; its return value is supplied as the
oracle `write_result`.  The result pair is the C `int` return value together
with the frame handed to `write` (`none`: `write` was never invoked, the
function rejected its arguments and returned `-1`).

`frame.can_id = extended_can_id | CAN_EFF_FLAG` is rendered as
`ecid % 2^31 + 2^31`, which equals the OR for every `ecid < 2^32`. -/
def can_send (write_result : Int) (extended_can_id : Nat)
    (frame_data : Option (List Nat)) (frame_data_len : Nat) :
    Int × Option CanFrame :=
  if frame_data_len > 8 then (-1, none)
  else
    match frame_data with
    | none => (-1, none)
    | some bs =>
        let ecid := extended_can_id % 0x100000000
        (write_result, some ⟨ecid % 0x80000000 + CAN_EFF_FLAG, bs.take frame_data_len⟩)

/-! ## UAVCAN transport layer (`uavcan_broadcast`) -/

/-- Arbitrary priority values from the C source. -/
def PRIORITY_HIGHEST : Nat := 0

def PRIORITY_HIGH : Nat := 8

def PRIORITY_MEDIUM : Nat := 16

def PRIORITY_LOW : Nat := 24

def PRIORITY_LOWEST : Nat := 31

/-- The C function `uavcan_broadcast(priority, data_type_id, transfer_id,
payload, payload_len)`.

The global `uint8_t uavcan_node_id` is passed explicitly.  The C parameter
types (`uint8_t priority`, `uint16_t data_type_id`, `uint8_t transfer_id`)
are modelled by reducing each argument at its uses.

The CAN identifier `(priority << 24) | (data_type_id << 8) | uavcan_node_id`
is rendered with `+`: the three fields occupy bits 24..31, 8..23 and 0..7 and
are disjoint thanks to the `uint8`/`uint16` bounds.  The tail byte
`0xC0 | (transfer_id & 31)` is likewise `0xC0 + transfer_id % 32` (bits 6..7
versus bits 0..4).  `memcpy(payload_with_tail_byte, payload, payload_len)` is
`bs.take payload_len`. -/
def uavcan_broadcast (write_result : Int) (uavcan_node_id : Nat)
    (priority : Nat) (data_type_id : Nat) (transfer_id : Nat)
    (payload : Option (List Nat)) (payload_len : Nat) :
    Int × Option CanFrame :=
  match payload with
  | none => (-1, none)
  | some bs =>
      if payload_len > 7 then (-1, none)
      else if priority > 31 then (-1, none)
      else
        let can_id : Nat :=
          (priority % 256) * 0x1000000 + (data_type_id % 0x10000) * 0x100 +
            uavcan_node_id % 256
        let tail : Nat := 0xC0 + transfer_id % 32
        can_send write_result can_id (some (bs.take payload_len ++ [tail]))
          (payload_len + 1)

/-! ## The receivers' inverse unpacking (UAVCAN v0 variant A)

A receiver recovers the priority from bits 24..28 of the identifier, the data
type id from bits 8..23, the source node id from bits 0..7, and the transfer
id from the low five bits of the tail byte (the last data byte). -/

/-- Priority class: bits 24..28 of the received identifier. -/
def decodePriority (f : CanFrame) : Nat := f.can_id / 0x1000000 % 32

/-- Data type id: bits 8..23 of the received identifier. -/
def decodeDataTypeId (f : CanFrame) : Nat := f.can_id / 0x100 % 0x10000

/-- Source node id: bits 0..7 of the received identifier. -/
def decodeSourceNodeId (f : CanFrame) : Nat := f.can_id % 0x100

/-- Transfer id: low five bits of the tail byte (last data byte). -/
def decodeTransferId (f : CanFrame) : Nat := f.data.getLastD 0 % 32

/-! ## Float16 support (`make_float16`)

The C routine reinterprets the `float` argument as its 32-bit IEEE-754 bit
pattern (`union fp32`), so the Lean model takes the bit pattern `u < 2^32`
directly.  The only floating-point arithmetic performed on the way is
`in.f *= magic.f` with `magic = { 15 << 23 }`, i.e. multiplication by the
exact power of two `2^(15-127) = 2^-112` under IEEE-754 binary32
round-to-nearest-even; `mulMagic` models that multiplication exactly on bit
patterns. -/

/-- Bit-pattern model of `in.f *= magic.f` (`magic.u = 15 << 23`, the float
value `2^-112`), for a nonnegative finite input pattern `u < 0x7F800000`.

For an input exponent field `e ≥ 113` the scaled result stays normal, so the
product is exact and the bit pattern just loses `112` from its exponent
field.  Otherwise the result is subnormal: its mantissa is the input
significand `S` divided by `2^(113 - max e 1)` and rounded to nearest, ties
to even, which is computed on the integers via quotient and remainder. -/
def mulMagic (u : Nat) : Nat :=
  let e := u / 0x800000
  if 113 ≤ e then u - 112 * 0x800000
  else
    let S := if e = 0 then u % 0x800000 else 0x800000 + u % 0x800000
    let s := 113 - max e 1
    let q := S / 2 ^ s
    let r := S % 2 ^ s
    if 2 ^ (s - 1) < r ∨ (r = 2 ^ (s - 1) ∧ q % 2 = 1) then q + 1 else q

/-- The C function `make_float16(value)`, on the 32-bit bit pattern of
`value` (`u < 2^32`).  Line by line:
  - `sign = in.u & sign_mask` is `0x80000000 * (u / 0x80000000)`;
  - `in.u ^= sign` clears the sign bit: `u % 0x80000000`;
  - the `in.u >= f32infty.u` branch handles infinity (`0x7C00`) and NaN
    (`0x7FFF`);
  - otherwise `in.u &= round_mask` is `0x1000 * (mag / 0x1000)`,
    `in.f *= magic.f` is `mulMagic`, and `in.u -= round_mask` adds `0x1000`
    modulo `2^32` (`round_mask = 0xFFFFF000` as `uint32_t`);
  - `out |= sign >> 16` is `out + sign / 0x10000`: `out` is at most
    `0x7FFF < 2^15` on every path while `sign >> 16` is `0` or `2^15`. -/
def make_float16 (u : Nat) : Nat :=
  let sign := 0x80000000 * (u / 0x80000000)
  let mag := u % 0x80000000
  let out :=
    if 0x7F800000 ≤ mag then
      if 0x7F800000 < mag then 0x7FFF else 0x7C00
    else
      let t0 := 0x1000 * (mag / 0x1000)
      let t1 := mulMagic t0
      let t2 := (t1 + 0x1000) % 0x100000000
      let t3 := if 0x0F800000 < t2 then 0x0F800000 else t2
      t3 / 0x2000
  out + sign / 0x10000

/-- Real value of a finite IEEE-754 binary32 magnitude bit pattern
(`u < 0x7F800000`; sign excluded). -/
def float32val (u : Nat) : ℚ :=
  let e := u / 0x800000
  let m := u % 0x800000
  if e = 0 then (m : ℚ) / 2 ^ 149 else ((0x800000 + m : Nat) : ℚ) * 2 ^ e / 2 ^ 150

/-- Real value of a finite IEEE-754 binary16 magnitude bit pattern
(`u < 0x7C00`; sign excluded). -/
def float16val (u : Nat) : ℚ :=
  let e := u / 0x400 % 32
  let m := u % 0x400
  if e = 0 then (m : ℚ) / 2 ^ 24 else ((0x400 + m : Nat) : ℚ) * 2 ^ e / 2 ^ 25

/-! ## Application logic -/

/-- `enum node_health` of the standard data type `uavcan.protocol.NodeStatus`. -/
def HEALTH_OK : Nat := 0

def HEALTH_WARNING : Nat := 1

def HEALTH_ERROR : Nat := 2

def HEALTH_CRITICAL : Nat := 3

/-- `enum node_mode` values. -/
def MODE_OPERATIONAL : Nat := 0

def MODE_INITIALIZATION : Nat := 1

def MODE_MAINTENANCE : Nat := 2

def MODE_SOFTWARE_UPDATE : Nat := 3

def MODE_OFFLINE : Nat := 7

/-- The function-local `static` state of `publish_node_status`: the lazily
captured uptime origin `startup_timestamp_usec` (zero-initialised) and the
`uint8_t transfer_id` counter (zero-initialised, kept below 256 by the
update). -/
structure NodeStatusState where
  startup_timestamp_usec : Nat
  transfer_id : Nat
deriving DecidableEq, Repr

/-- `(uint32_t)((now - startup) / 1000000ULL)`: the subtraction is performed
on `uint64_t` (modulo `2^64`), the quotient is truncated to `uint32_t`. -/
def uptime_sec (startup now : Nat) : Nat :=
  ((now % 0x10000000000000000 + 0x10000000000000000 - startup % 0x10000000000000000) %
      0x10000000000000000 / 1000000) % 0x100000000

/-- The seven payload bytes assembled by `publish_node_status` from the
already-computed uptime `u`.

The bytes follow the C lines: bytes 0..3 are `(uptime_sec >> 8k) & 0xFF`;
byte 4 is `((uint8_t)health << 6) | ((uint8_t)mode << 3)` truncated to
`uint8_t`, kept as a literal `|||` because out-of-range enum arguments could
make the two fields overlap; bytes 5..6 are the vendor status halves. -/
def nodeStatusPayload (u health mode vendor_specific_status_code : Nat) :
    List Nat :=
  [u % 256, u / 0x100 % 256, u / 0x10000 % 256, u / 0x1000000 % 256,
    ((health % 256) * 0x40 ||| (mode % 256) * 0x8) % 256,
    vendor_specific_status_code % 256,
    vendor_specific_status_code / 0x100 % 256]

/-- The C function `publish_node_status(health, mode,
vendor_specific_status_code)`, with its external inputs explicit:
`write_result` is the transport oracle, `uavcan_node_id` the global node id,
`clock_at_init` and `clock_now` the two potential `get_monotonic_usec()`
readings.  The returned state carries the updated statics; `transfer_id++`
passes the old counter to `uavcan_broadcast` and stores the incremented
`uint8_t`. -/
def publish_node_status (write_result : Int) (uavcan_node_id : Nat)
    (clock_at_init clock_now : Nat) (st : NodeStatusState)
    (health mode vendor_specific_status_code : Nat) :
    NodeStatusState × (Int × Option CanFrame) :=
  let startup :=
    if st.startup_timestamp_usec = 0 then clock_at_init
    else st.startup_timestamp_usec
  let payload : List Nat :=
    nodeStatusPayload (uptime_sec startup clock_now) health mode
      vendor_specific_status_code
  (⟨startup, (st.transfer_id + 1) % 256⟩,
    uavcan_broadcast write_result uavcan_node_id PRIORITY_LOW 341
      st.transfer_id (some payload) 7)

/-- The function-local `static uint8_t transfer_id` of
`publish_true_airspeed`. -/
structure AirspeedState where
  transfer_id : Nat
deriving DecidableEq, Repr

/-- The four payload bytes assembled by `publish_true_airspeed`: the two
half-float encodings, each little-endian. -/
def airspeedPayload (mean_bits variance_bits : Nat) : List Nat :=
  [make_float16 mean_bits % 256, make_float16 mean_bits / 0x100 % 256,
    make_float16 variance_bits % 256, make_float16 variance_bits / 0x100 % 256]

/-- The C function `publish_true_airspeed(mean, variance)`, taking the 32-bit
bit patterns of the two `float` arguments.  `transfer_id += 1` increments the
`uint8_t` counter before the call, so the incremented value is both stored
and transmitted. -/
def publish_true_airspeed (write_result : Int) (uavcan_node_id : Nat)
    (st : AirspeedState) (mean_bits variance_bits : Nat) :
    AirspeedState × (Int × Option CanFrame) :=
  let payload : List Nat := airspeedPayload mean_bits variance_bits
  let tid := (st.transfer_id + 1) % 256
  (⟨tid⟩,
    uavcan_broadcast write_result uavcan_node_id PRIORITY_MEDIUM 1020 tid
      (some payload) 4)

/-- `compute_true_airspeed` is a stub that always reports success (`0`). -/
def compute_true_airspeed_result : Int := 0

/-- One iteration of the main loop, restricted to the health variable: the
measurement is computed (the stub always succeeds), published with outcome
`publication_result`, and `health` is overwritten from that outcome alone.
`prev_health` is the variable's value entering the iteration; the C loop
never reads it, which the model makes visible by ignoring the argument. -/
def mainLoopHealth (publication_result : Int) (prev_health : Nat) : Nat :=
  if compute_true_airspeed_result = 0 then
    if publication_result < 0 then HEALTH_ERROR else HEALTH_OK
  else HEALTH_ERROR

/-- The health variable after running the loop body once per entry of
`outcomes` (each entry the measurement-publication result of one iteration),
starting from `h0`. -/
def healthAfter (outcomes : List Int) (h0 : Nat) : Nat :=
  outcomes.foldl (fun h p => mainLoopHealth p h) h0

/-! ## Startup (`main`) -/

/-- The C cast `(uint8_t)x` applied to an `int` (the result of `atoi`):
reduction modulo `2^8` into `0..255`. -/
def toUint8 (x : Int) : Nat := (x % 256).toNat

/-- Observable outcome of the startup section of `main` (before the loop):
`exit_code = some c` means the process printed a diagnostic and returned `c`;
`none` means it reached the main loop.  `transport_opened` records whether
`can_init` was invoked; `node_id` is the value left in the global
`uavcan_node_id` (zero-initialised). -/
structure StartupOutcome where
  exit_code : Option Nat
  transport_opened : Bool
  node_id : Nat
deriving DecidableEq, Repr

/-- The startup section of `main(argc, argv)`: `atoi_arg1` is the `int`
produced by `atoi(argv[1])` (when `argc ≥ 3`), `can_init_result` the result
of `can_init(argv[2])`.  The global `uavcan_node_id` is assigned the
truncated byte before the range check, exactly as in the source. -/
def mainStartup (argc : Nat) (atoi_arg1 : Int) (can_init_result : Int) :
    StartupOutcome :=
  if argc < 3 then ⟨some 1, false, 0⟩
  else
    let uavcan_node_id := toUint8 atoi_arg1
    if uavcan_node_id < 1 ∨ uavcan_node_id > 127 then
      ⟨some 1, false, uavcan_node_id⟩
    else if can_init_result < 0 then ⟨some 1, true, uavcan_node_id⟩
    else ⟨none, true, uavcan_node_id⟩

/-! ## Helper lemmas -/

/-- Shape of a successful `uavcan_broadcast`: the contract checks pass, the
CAN identifier packs the three fields plus the EFF flag, and the data handed
to the transport is the copied payload followed by the tail byte. -/
theorem uavcan_broadcast_some (wr : Int) (node p d q : Nat) (bs : List Nat)
    (len : Nat) (h1 : len ≤ 7) (h2 : p ≤ 31) :
    uavcan_broadcast wr node p d q (some bs) len =
      (wr, some ⟨p * 0x1000000 + (d % 0x10000) * 0x100 + node % 256 + CAN_EFF_FLAG,
        (bs.take len ++ [0xC0 + q % 32]).take (len + 1)⟩) := by
  have hp : p % 256 = p := Nat.mod_eq_of_lt (by omega)
  have hd : d % 0x10000 < 0x10000 := Nat.mod_lt _ (by omega)
  have hn : node % 256 < 256 := Nat.mod_lt _ (by omega)
  simp only [uavcan_broadcast, can_send, hp]
  rw [if_neg (by omega), if_neg (by omega), if_neg (by omega)]
  have hcan :
      (p * 0x1000000 + (d % 0x10000) * 0x100 + node % 256) % 0x100000000 %
          0x80000000 =
        p * 0x1000000 + (d % 0x10000) * 0x100 + node % 256 := by omega
  simp only [hcan, CAN_EFF_FLAG]

/-- A list of length `n + 1` is unchanged by `take (n + 1)`; specialisation
used for the payload-plus-tail data of a frame. -/
theorem take_payload_tail (bs : List Nat) (t : Nat) :
    (bs.take bs.length ++ [t]).take (bs.length + 1) = bs ++ [t] := by
  rw [List.take_length]
  exact List.take_of_length_le (by simp)

/-- The tail byte is the last data byte of a successful broadcast frame. -/
theorem getLastD_payload_tail (bs : List Nat) (t : Nat) :
    (bs ++ [t]).getLastD 0 = t := by
  simp [List.getLastD_eq_getLast?]

/-- Byte 4 of the node-status payload: for in-range enum arguments the two
bit fields are disjoint and the OR is the sum. -/
theorem health_mode_byte :
    ∀ h < 4, ∀ m < 8,
      ((h % 256) * 0x40 ||| (m % 256) * 0x8) % 256 = h * 0x40 + m * 0x8 := by
  decide

/-- Closed form of `publish_node_status`: the origin keeps its first nonzero
value, the counter advances modulo 256, and the broadcast always succeeds
(7-byte payload, priority 24). -/
theorem publish_node_status_eq (wr : Int) (node ci cn h m v : Nat)
    (st : NodeStatusState) :
    publish_node_status wr node ci cn st h m v =
      (⟨if st.startup_timestamp_usec = 0 then ci else st.startup_timestamp_usec,
          (st.transfer_id + 1) % 256⟩,
        (wr, some ⟨24 * 0x1000000 + 341 * 0x100 + node % 256 + CAN_EFF_FLAG,
          nodeStatusPayload
              (uptime_sec
                (if st.startup_timestamp_usec = 0 then ci
                  else st.startup_timestamp_usec) cn) h m v ++
            [0xC0 + st.transfer_id % 32]⟩)) := by
  simp only [publish_node_status, PRIORITY_LOW]
  rw [uavcan_broadcast_some wr node 24 341 st.transfer_id _ 7 (by omega) (by omega)]
  rfl

/-- Closed form of `publish_true_airspeed`: the counter advances modulo 256
before being transmitted, and the broadcast always succeeds (4-byte payload,
priority 16). -/
theorem publish_true_airspeed_eq (wr : Int) (node mb vb : Nat)
    (st : AirspeedState) :
    publish_true_airspeed wr node st mb vb =
      (⟨(st.transfer_id + 1) % 256⟩,
        (wr, some ⟨16 * 0x1000000 + 1020 * 0x100 + node % 256 + CAN_EFF_FLAG,
          airspeedPayload mb vb ++
            [0xC0 + (st.transfer_id + 1) % 256 % 32]⟩)) := by
  simp only [publish_true_airspeed, PRIORITY_MEDIUM]
  rw [uavcan_broadcast_some wr node 16 1020 ((st.transfer_id + 1) % 256) _ 4
    (by omega) (by omega)]
  rfl

/-- In the exact branch of the magic multiplication (input exponent field at
least 113, so the rescaled value stays normal), the product just subtracts
112 from the exponent field. -/
theorem mulMagic_of_high (t : Nat) (h : 113 * 0x800000 ≤ t) :
    mulMagic t = t - 112 * 0x800000 := by
  unfold mulMagic
  rw [if_pos (by omega)]

/-! ## Claim theorems -/

/-- C10: `uavcan_broadcast` rejects a NULL payload pointer unconditionally,
for every length including zero, returning `-1` without invoking `can_send`;
`can_send` likewise rejects NULL frame data regardless of the length. -/
theorem null_payload_rejected (wr wr' : Int) (node p d q len ecid flen : Nat) :
    uavcan_broadcast wr node p d q none len = (-1, none) ∧
    can_send wr' ecid none flen = (-1, none) := by
  refine ⟨rfl, ?_⟩
  unfold can_send
  split <;> rfl

/-- C4: every call to `uavcan_broadcast` with `payload_len > 7` (payload plus
tail would exceed 8 bytes) or `priority > 31` returns `-1` and hands no frame
to the transport; and on the accepting path nothing is truncated: the frame
data is the entire payload followed by the tail byte. -/
theorem broadcast_reject_oversize (wr : Int) (node p d q len : Nat)
    (payload : Option (List Nat)) :
    (len > 7 ∨ p > 31 → uavcan_broadcast wr node p d q payload len = (-1, none)) ∧
    (∀ bs : List Nat, payload = some bs → len = bs.length → len ≤ 7 → p ≤ 31 →
      (uavcan_broadcast wr node p d q payload len).2 =
        some ⟨p * 0x1000000 + (d % 0x10000) * 0x100 + node % 256 + CAN_EFF_FLAG,
          bs ++ [0xC0 + q % 32]⟩) := by
  constructor
  · intro h
    rcases payload with _ | bs
    · rfl
    · simp only [uavcan_broadcast]
      rcases h with h | h
      · rw [if_pos (by omega)]
      · by_cases h7 : len > 7
        · rw [if_pos (by omega)]
        · rw [if_neg (by omega), if_pos (by omega)]
  · intro bs hbs hlen h7 h31
    subst hbs hlen
    rw [uavcan_broadcast_some wr node p d q bs bs.length h7 h31]
    rw [take_payload_tail]

/-- C4 witness: an 8-byte payload (which with the tail byte would need 9
bytes) is rejected with -1 and no frame reaches the transport; a 3-byte
payload is sent whole, untruncated, with the tail byte appended. -/
theorem broadcast_reject_oversize_witness :
    uavcan_broadcast 0 42 16 341 3 (some [1, 2, 3, 4, 5, 6, 7, 8]) 8 =
      (-1, none) ∧
    (uavcan_broadcast 0 42 16 341 3 (some [1, 2, 3]) 3).2 =
      some ⟨16 * 0x1000000 + (341 % 0x10000) * 0x100 + 42 % 256 + CAN_EFF_FLAG,
        [1, 2, 3] ++ [0xC0 + 3 % 32]⟩ :=
  ⟨(broadcast_reject_oversize 0 42 16 341 3 8
      (some [1, 2, 3, 4, 5, 6, 7, 8])).1 (Or.inl (by decide)),
    (broadcast_reject_oversize 0 42 16 341 3 3 (some [1, 2, 3])).2 [1, 2, 3]
      rfl rfl (by decide) (by decide)⟩

/-- C2 counterexample: two broadcasts that differ only in the sequence
counter (0 versus 1) produce the same addressing field (`can_id`), so the
addressing field alone cannot decode back the sequence counter; the counter
is recovered from the tail byte instead. -/
theorem addressing_field_seq_cex :
    (uavcan_broadcast 0 42 16 1020 0 (some [7]) 1).2.map CanFrame.can_id =
      (uavcan_broadcast 0 42 16 1020 1 (some [7]) 1).2.map CanFrame.can_id ∧
    (uavcan_broadcast 0 42 16 1020 0 (some [7]) 1).2.map decodeTransferId =
      some 0 ∧
    (uavcan_broadcast 0 42 16 1020 1 (some [7]) 1).2.map decodeTransferId =
      some 1 := by
  decide

/-- C2 (amended): for every valid quadruple (priority 0..31, messageTypeId
0..65535, senderId 1..127, sequenceCounter below 32), the frame produced by
`uavcan_broadcast` decodes back, via the receivers' inverse unpacking, to
exactly those four values: priority, message type id and sender id from the
addressing field, and the sequence counter from the tail byte. -/
theorem broadcast_frame_roundtrip (wr : Int) (p d s q : Nat) (bs : List Nat)
    (hp : p ≤ 31) (hd : d < 0x10000) (hs1 : 1 ≤ s) (hs : s ≤ 127) (hq : q < 32)
    (hlen : bs.length ≤ 7) :
    ∃ f : CanFrame,
      (uavcan_broadcast wr s p d q (some bs) bs.length).2 = some f ∧
      decodePriority f = p ∧ decodeDataTypeId f = d ∧
      decodeSourceNodeId f = s ∧ decodeTransferId f = q := by
  refine ⟨⟨p * 0x1000000 + (d % 0x10000) * 0x100 + s % 256 + CAN_EFF_FLAG,
    bs ++ [0xC0 + q % 32]⟩, ?_, ?_, ?_, ?_, ?_⟩
  · rw [uavcan_broadcast_some wr s p d q bs bs.length hlen hp, take_payload_tail]
  · simp only [decodePriority, CAN_EFF_FLAG]
    omega
  · simp only [decodeDataTypeId, CAN_EFF_FLAG]
    omega
  · simp only [decodeSourceNodeId, CAN_EFF_FLAG]
    omega
  · simp only [decodeTransferId, getLastD_payload_tail]
    omega

/-- C2 witness: the round trip evaluated at priority 16, message type 1020,
sender 42, sequence counter 7 with a three-byte payload. -/
theorem broadcast_frame_roundtrip_witness :
    ∃ f : CanFrame,
      (uavcan_broadcast 0 42 16 1020 7 (some [1, 2, 3]) 3).2 = some f ∧
      decodePriority f = 16 ∧ decodeDataTypeId f = 1020 ∧
      decodeSourceNodeId f = 42 ∧ decodeTransferId f = 7 :=
  broadcast_frame_roundtrip 0 16 1020 42 7 [1, 2, 3] (by decide) (by decide)
    (by decide) (by decide) (by decide) (by decide)

/-- C1 counterexample: the argument value 257 is greater than 127, yet
startup does not reject it: the cast to `uint8_t` truncates 257 to 1, the
range check passes, the transport is opened and the stored node identity
is 1. -/
theorem node_id_truncation_cex :
    (257 : Int) > 127 ∧
    mainStartup 3 257 0 = ⟨none, true, 1⟩ := by
  constructor
  · decide
  · rfl

/-- C1 (amended): the startup range check applies to the result of `atoi`
truncated to `uint8_t`: with enough arguments, the process prints a
diagnostic and exits with code 1 before the transport is opened exactly when
the truncated byte is 0 or greater than 127; otherwise the node identity
stored and used is the truncated byte, which always lies in 1..127. -/
theorem node_id_range_check (argc : Nat) (v ci : Int) (hargc : 3 ≤ argc) :
    ((toUint8 v = 0 ∨ 127 < toUint8 v) →
      mainStartup argc v ci = ⟨some 1, false, toUint8 v⟩) ∧
    (1 ≤ toUint8 v → toUint8 v ≤ 127 →
      (mainStartup argc v ci).node_id = toUint8 v ∧
      1 ≤ (mainStartup argc v ci).node_id ∧
      (mainStartup argc v ci).node_id ≤ 127) := by
  constructor
  · intro h
    unfold mainStartup
    rw [if_neg (by omega), if_pos (by omega)]
  · intro h1 h127
    unfold mainStartup
    rw [if_neg (by omega), if_neg (by omega)]
    by_cases hci : ci < 0
    · rw [if_pos hci]
      exact ⟨rfl, h1, h127⟩
    · rw [if_neg hci]
      exact ⟨rfl, h1, h127⟩

/-- C1 witness: argument value 200 is rejected before the transport opens;
argument value 42 is accepted and stored as node identity 42. -/
theorem node_id_range_check_witness :
    ((toUint8 200 = 0 ∨ 127 < toUint8 200) →
      mainStartup 3 200 0 = ⟨some 1, false, toUint8 200⟩) ∧
    (1 ≤ toUint8 42 → toUint8 42 ≤ 127 →
      (mainStartup 3 42 0).node_id = toUint8 42 ∧
      1 ≤ (mainStartup 3 42 0).node_id ∧
      (mainStartup 3 42 0).node_id ≤ 127) :=
  ⟨(node_id_range_check 3 200 0 (by decide)).1,
    (node_id_range_check 3 42 0 (by decide)).2⟩

/-- C3: for both message types, the wire-visible sequence counter (low five
bits of the tail byte) advances by exactly 1 modulo 32 from one
`uavcan_broadcast` call to the next, the underlying 8-bit counter advances
modulo 256, and both updates happen for every transport outcome
(`wr1`, `wr2` arbitrary, so also for failed sends). -/
theorem transfer_counter_step (wr1 wr2 : Int)
    (node h m v ci1 cn1 ci2 cn2 mb vb : Nat)
    (stN : NodeStatusState) (stA : AirspeedState)
    (htN : stN.transfer_id < 256) (htA : stA.transfer_id < 256) :
    ((publish_node_status wr1 node ci1 cn1 stN h m v).1.transfer_id =
      (stN.transfer_id + 1) % 256) ∧
    ((publish_node_status wr1 node ci1 cn1 stN h m v).2.2.map decodeTransferId =
      some (stN.transfer_id % 32)) ∧
    ((publish_node_status wr2 node ci2 cn2
        (publish_node_status wr1 node ci1 cn1 stN h m v).1 h m
        v).2.2.map decodeTransferId =
      some ((stN.transfer_id % 32 + 1) % 32)) ∧
    ((publish_true_airspeed wr1 node stA mb vb).1.transfer_id =
      (stA.transfer_id + 1) % 256) ∧
    ((publish_true_airspeed wr1 node stA mb vb).2.2.map decodeTransferId =
      some ((stA.transfer_id + 1) % 256 % 32)) ∧
    ((publish_true_airspeed wr2 node
        (publish_true_airspeed wr1 node stA mb vb).1 mb
        vb).2.2.map decodeTransferId =
      some (((stA.transfer_id + 1) % 256 % 32 + 1) % 32)) := by
  simp only [publish_node_status_eq, publish_true_airspeed_eq,
    Option.map_some', decodeTransferId, getLastD_payload_tail,
    Option.some.injEq]
  and_intros <;> first
  | trivial
  | omega

/-- C3 witness: both counters at 255 (the 8-bit overflow point) with a
failing first send (`write` result -1): the node-status wire counter goes
31 then 0, the airspeed wire counter goes 0 then 1, and both stored counters
wrap to 0. -/
theorem transfer_counter_step_witness :
    ((publish_node_status (-1) 42 10 20 ⟨0, 255⟩ 0 0 0).1.transfer_id =
      (255 + 1) % 256) ∧
    ((publish_node_status (-1) 42 10 20 ⟨0, 255⟩ 0 0
        0).2.2.map decodeTransferId = some (255 % 32)) ∧
    ((publish_node_status 0 42 30 40
        (publish_node_status (-1) 42 10 20 ⟨0, 255⟩ 0 0 0).1 0 0
        0).2.2.map decodeTransferId = some ((255 % 32 + 1) % 32)) ∧
    ((publish_true_airspeed (-1) 42 ⟨255⟩ 0 0).1.transfer_id =
      (255 + 1) % 256) ∧
    ((publish_true_airspeed (-1) 42 ⟨255⟩ 0 0).2.2.map decodeTransferId =
      some ((255 + 1) % 256 % 32)) ∧
    ((publish_true_airspeed 0 42
        (publish_true_airspeed (-1) 42 ⟨255⟩ 0 0).1 0
        0).2.2.map decodeTransferId = some (((255 + 1) % 256 % 32 + 1) % 32)) :=
  transfer_counter_step (-1) 0 42 0 0 0 10 20 30 40 0 0 ⟨0, 255⟩ ⟨255⟩
    (by decide) (by decide)

/-- C5: the heartbeat frame built by `publish_node_status` carries exactly
the variant-A layout: bytes 0..3 the 32-bit uptime-in-seconds little-endian,
byte 4 the health code in the top 2 bits and the mode code in the next
3 bits, bytes 5..6 the 16-bit vendor status little-endian, followed by the
single-frame tail byte. -/
theorem node_status_payload_layout (wr : Int) (node ci cn h m v u : Nat)
    (st : NodeStatusState) (hh : h < 4) (hm : m < 8) (hv : v < 0x10000)
    (hu : uptime_sec
        (if st.startup_timestamp_usec = 0 then ci
          else st.startup_timestamp_usec) cn = u) :
    (publish_node_status wr node ci cn st h m v).2.2 =
      some ⟨24 * 0x1000000 + 341 * 0x100 + node % 256 + CAN_EFF_FLAG,
        [u % 256, u / 0x100 % 256, u / 0x10000 % 256, u / 0x1000000,
          h * 0x40 + m * 0x8, v % 256, v / 0x100,
          0xC0 + st.transfer_id % 32]⟩ := by
  have hu32 : u < 0x100000000 := by
    rw [← hu]; exact Nat.mod_lt _ (by norm_num)
  rw [publish_node_status_eq]
  simp only [nodeStatusPayload, hu]
  rw [health_mode_byte h hh m hm]
  have h3 : u / 0x1000000 % 256 = u / 0x1000000 := by omega
  have h6 : v / 0x100 % 256 = v / 0x100 := by omega
  rw [h3, h6]
  rfl

/-- C5 witness: node 42, origin captured at 3 s, clock at 9 s (uptime 6 s),
health 2 (error), mode 0, vendor status 0xABCD. -/
theorem node_status_payload_layout_witness :
    (publish_node_status 0 42 3000000 9000000 ⟨0, 0⟩ 2 0 0xABCD).2.2 =
      some ⟨24 * 0x1000000 + 341 * 0x100 + 42 % 256 + CAN_EFF_FLAG,
        [6 % 256, 6 / 0x100 % 256, 6 / 0x10000 % 256, 6 / 0x1000000,
          2 * 0x40 + 0 * 0x8, 0xABCD % 256, 0xABCD / 0x100,
          0xC0 + 0 % 32]⟩ :=
  node_status_payload_layout 0 42 3000000 9000000 2 0 0xABCD 6 ⟨0, 0⟩
    (by decide) (by decide) (by decide) (by decide)

/-- C7: the health carried by an iteration's heartbeat is `HEALTH_OK`
exactly when that iteration's measurement publish succeeded (result ≥ 0) and
`HEALTH_ERROR` exactly when it failed; the transition ignores the previous
health entirely (one-step memory, no debounce), so after any history the
health is determined by the last outcome alone, and a successful publish
after a failed one restores `HEALTH_OK`. -/
theorem health_one_step (p : Int) (prev prev2 h0 h02 : Nat)
    (os os2 : List Int) :
    (mainLoopHealth p prev = HEALTH_OK ↔ 0 ≤ p) ∧
    (mainLoopHealth p prev = HEALTH_ERROR ↔ p < 0) ∧
    mainLoopHealth p prev = mainLoopHealth p prev2 ∧
    healthAfter (os ++ [p]) h0 = healthAfter (os2 ++ [p]) h02 ∧
    mainLoopHealth 0 (mainLoopHealth (-1) prev) = HEALTH_OK := by
  simp only [mainLoopHealth, healthAfter, compute_true_airspeed_result,
    HEALTH_OK, HEALTH_ERROR, List.foldl_append, List.foldl_cons,
    List.foldl_nil, if_true, reduceIte]
  by_cases hp : p < 0 <;> simp [hp] <;> omega

/-- C8 counterexample: when the monotonic clock reads 0 at the first call,
the first call does not win: the origin is still 0 after the first call and
a later call re-captures it (origin becomes 5), so the origin observed after
the first call changes on a later call. -/
theorem startup_origin_cex :
    (publish_node_status 0 1 0 0 ⟨0, 0⟩ 0 0 0).1.startup_timestamp_usec = 0 ∧
    (publish_node_status 0 1 5 9
        (publish_node_status 0 1 0 0 ⟨0, 0⟩ 0 0
          0).1 0 0 0).1.startup_timestamp_usec = 5 :=
  ⟨rfl, rfl⟩

/-- C8 (amended): the origin cell is governed by a first-nonzero-write-wins
rule keyed on the sentinel 0: a call that finds the origin nonzero leaves it
unchanged, and a call that finds it zero stores the current clock reading.
In particular, if the clock reading at the first call is nonzero, that first
call wins and the origin never changes afterwards; a zero reading (the
sentinel itself) leaves initialisation pending. -/
theorem startup_origin_first_write_wins (wr : Int) (node ci cn h m v : Nat)
    (st : NodeStatusState) :
    (st.startup_timestamp_usec ≠ 0 →
      (publish_node_status wr node ci cn st h m v).1.startup_timestamp_usec =
        st.startup_timestamp_usec) ∧
    (st.startup_timestamp_usec = 0 →
      (publish_node_status wr node ci cn st h m v).1.startup_timestamp_usec =
        ci) := by
  rw [publish_node_status_eq]
  constructor
  · intro h0
    simp [h0]
  · intro h0
    simp [h0]

/-- C8 witness: an origin of 7 survives a later call unchanged; a zero
origin is set to the call's clock reading 5. -/
theorem startup_origin_first_write_wins_witness :
    ((publish_node_status 0 1 11 9 ⟨7, 0⟩ 0 0 0).1.startup_timestamp_usec =
      (⟨7, 0⟩ : NodeStatusState).startup_timestamp_usec) ∧
    ((publish_node_status 0 1 5 9 ⟨0, 3⟩ 0 0 0).1.startup_timestamp_usec =
      5) :=
  ⟨(startup_origin_first_write_wins 0 1 11 9 0 0 0 ⟨7, 0⟩).1 (by decide),
    (startup_origin_first_write_wins 0 1 5 9 0 0 0 ⟨0, 3⟩).2 rfl⟩

/-- C6 counterexample: 65505.0f (bit pattern 0x477FE100) has magnitude
exceeding 65504, the largest finite half-precision value (pattern 0x7BFF),
yet `make_float16` returns that largest finite pattern 0x7BFF, not the
infinity pattern 0x7C00: the conversion rounds down to the finite range for
magnitudes below the rounding threshold 65520. -/
theorem make_float16_overflow_cex :
    (65504 : ℚ) < float32val 0x477FE100 ∧
    float32val 0x477FE100 = 65505 ∧
    float16val 0x7BFF = 65504 ∧
    make_float16 0x477FE100 = 0x7BFF ∧
    (0x7BFF : Nat) ≠ 0x7C00 := by
  refine ⟨by norm_num [float32val], by norm_num [float32val],
    by norm_num [float16val], by decide, by decide⟩

/-- C6 (amended): for every 32-bit float input whose magnitude is at least
65520 (bit patterns from 0x477FF000 up to and including the infinity
pattern 0x7F800000) — that is, whose magnitude reaches the threshold at
which the conversion's rounding carries past the largest finite
half-precision value — the result is the half-precision infinity pattern
0x7C00 with bit 15 equal to the input's sign bit; for every NaN input
(magnitude bits above 0x7F800000) the result's low 15 bits are the
quiet-NaN pattern 0x7FFF with bit 15 taken from the input's sign bit. -/
theorem make_float16_saturation (u : Nat) (hu : u < 0x100000000) :
    (0x477FF000 ≤ u % 0x80000000 → u % 0x80000000 ≤ 0x7F800000 →
      make_float16 u = 0x7C00 + 0x8000 * (u / 0x80000000)) ∧
    (0x7F800000 < u % 0x80000000 →
      make_float16 u = 0x7FFF + 0x8000 * (u / 0x80000000)) ∧
    float32val 0x477FF000 = 65520 := by
  refine ⟨?_, ?_, by norm_num [float32val]⟩
  · intro h1 h2
    by_cases hinf : 0x7F800000 ≤ u % 0x80000000
    · have hlt : ¬ 0x7F800000 < u % 0x80000000 := by omega
      simp only [make_float16, if_pos hinf, if_neg hlt]
      omega
    · simp only [make_float16, if_neg hinf]
      rw [mulMagic_of_high _ (by omega)]
      split <;> omega
  · intro h1
    simp only [make_float16, if_pos (by omega : 0x7F800000 ≤ u % 0x80000000),
      if_pos h1]
    omega

/-- C6 witness: -65536.0f (bit pattern 0xC7800000) saturates to the negative
infinity pattern 0xFC00, and the NaN pattern 0x7FC00001 (sign bit clear)
maps to the quiet-NaN pattern 0x7FFF. -/
theorem make_float16_saturation_witness :
    make_float16 0xC7800000 = 0x7C00 + 0x8000 * (0xC7800000 / 0x80000000) ∧
    make_float16 0x7FC00001 = 0x7FFF + 0x8000 * (0x7FC00001 / 0x80000000) :=
  ⟨(make_float16_saturation 0xC7800000 (by decide)).1 (by decide) (by decide),
    (make_float16_saturation 0x7FC00001 (by decide)).2.1 (by decide)⟩

/-- C9: for every 32-bit float input, bit 15 of the 16-bit output of
`make_float16` equals the input's IEEE-754 sign bit (the output fits in 16
bits, and its top bit is the input's top bit), including for zero and NaN
inputs; in particular +0.0f maps to 0x0000 and -0.0f to 0x8000, which
differ only in the sign bit, and both have zero magnitude (value 0) in
their low 15 bits. -/
theorem sign_bit_preserved (u : Nat) (hu : u < 0x100000000) :
    make_float16 u < 0x10000 ∧
    make_float16 u / 0x8000 = u / 0x80000000 ∧
    make_float16 0x00000000 = 0x0000 ∧
    make_float16 0x80000000 = 0x8000 ∧
    float16val (make_float16 0x00000000 % 0x8000) = 0 ∧
    float16val (make_float16 0x80000000 % 0x8000) = 0 := by
  have h0 : make_float16 0x00000000 % 0x8000 = 0 := rfl
  have h80 : make_float16 0x80000000 % 0x8000 = 0 := rfl
  have key : make_float16 u < 0x10000 ∧
      make_float16 u / 0x8000 = u / 0x80000000 := by
    simp only [make_float16]
    generalize mulMagic (0x1000 * (u % 0x80000000 / 0x1000)) = w
    split_ifs <;> constructor <;> omega
  refine ⟨key.1, key.2, rfl, rfl, ?_, ?_⟩
  · rw [h0]; norm_num [float16val]
  · rw [h80]; norm_num [float16val]

/-- C9 witness: evaluated at -123.0f (bit pattern 0xC2F60000), whose sign
bit is set. -/
theorem sign_bit_preserved_witness :
    make_float16 0xC2F60000 < 0x10000 ∧
    make_float16 0xC2F60000 / 0x8000 = 0xC2F60000 / 0x80000000 ∧
    make_float16 0x00000000 = 0x0000 ∧
    make_float16 0x80000000 = 0x8000 ∧
    float16val (make_float16 0x00000000 % 0x8000) = 0 ∧
    float16val (make_float16 0x80000000 % 0x8000) = 0 :=
  sign_bit_preserved 0xC2F60000 (by decide)

end SensorNode
